import Mathlib

/-!
Shallow embedding of the service worker in `sw.js` of the geniusglider
landing page: the strategy classifier and executor (cache-first,
network-first, stale-while-revalidate), the expiry policy, the activation
sweep of old cache generations, and the offline form-submission queue.

JavaScript async functions are modelled as pure Lean functions from their
inputs (the cache contents visible to them, the outcome of the single
network fetch they perform, the current time) to the value their promise
settles with; promise rejection is an `Except.error`, and a promise that
never settles is `Option.none` at the outer level where that can happen.
`undefined` resolutions are `Option.none` at the inner level.  Machine
time is milliseconds as `Int` (JS `Date` subtraction).
-/

namespace Geniusglider

/-- Chars `pat` is a prefix of chars `s` (char-by-char, structural). -/
def charsPrefix : List Char → List Char → Bool
  | [], _ => true
  | _ :: _, [] => false
  | a :: as, b :: bs => a == b && charsPrefix as bs

/-- Chars `pat` occurs somewhere inside chars `s`. -/
def charsContain (pat : List Char) : List Char → Bool
  | [] => charsPrefix pat []
  | s@(_ :: rest) => charsPrefix pat s || charsContain pat rest

/-- JS `s.includes(pat)` on strings. -/
def jsIncludes (s pat : String) : Bool := charsContain pat.data s.data

/-- JS `s.startsWith(pat)` on strings. -/
def jsStartsWith (s pat : String) : Bool := charsPrefix pat.data s.data

/-- A URL as the service worker sees it: the full string (`request.url`,
`response.url`) and the platform-parsed `new URL(u).pathname`. -/
structure Url where
  href : String
  pathname : String
deriving DecidableEq, Repr

/-- `STATIC_FILES` (sw.js line 11): app-shell paths cached at install. -/
def STATIC_FILES : List String :=
  ["/", "/index.html", "/assets/css/critical.css", "/assets/css/styles.css",
   "/assets/js/app.js", "/assets/images/logo.svg", "/assets/images/logo-white.svg",
   "/manifest.json"]

/-- `STATIC_CACHE_NAME` (sw.js line 7). -/
def STATIC_CACHE_NAME : String := "geniusglider-static-v1.0.0"

/-- `DYNAMIC_CACHE_NAME` (sw.js line 8). -/
def DYNAMIC_CACHE_NAME : String := "geniusglider-dynamic-v1.0.0"

/-- `CACHE_MAX_AGE` (sw.js line 38): per-class maximum ages in milliseconds. -/
structure CacheMaxAge where
  static : Int
  dynamic : Int
  api : Int

/-- `CACHE_MAX_AGE` values: 30 days static, 7 days dynamic, 1 hour api. -/
def CACHE_MAX_AGE : CacheMaxAge :=
  { static := 30 * 24 * 60 * 60 * 1000
    dynamic := 7 * 24 * 60 * 60 * 1000
    api := 60 * 60 * 1000 }

/-- A captured HTTP response: status, body, its URL, and the `date` header
as an optional millisecond timestamp (absent header → `none`). -/
structure Response where
  status : Nat
  body : String
  url : Url
  dateHeader : Option Int
deriving DecidableEq, Repr

/-- `new Response('Offline')` (sw.js lines 196 and 254): a synthetic
status-200 response with body "Offline" and empty URL. -/
def offlineResponse : Response :=
  { status := 200, body := "Offline", url := { href := "", pathname := "" }, dateHeader := none }

/-- `isStaticAsset` (sw.js line 274): the URL's pathname is in
`STATIC_FILES`, or the full URL contains `/assets/`. -/
def isStaticAsset (u : Url) : Bool :=
  STATIC_FILES.contains u.pathname || jsIncludes u.href "/assets/"

/-- `isCacheExpired` (sw.js line 292): age = now − capture date (date header
absent → now, so age 0), compared strictly against the class's max age,
the class chosen by URL shape: contains `/api/` → api, static-asset-shaped
→ static, else dynamic. -/
def isCacheExpired (resp : Response) (now : Int) : Bool :=
  let cachedDate : Int := resp.dateHeader.getD now
  let age : Int := now - cachedDate
  if jsIncludes resp.url.href "/api/" then decide (age > CACHE_MAX_AGE.api)
  else if isStaticAsset resp.url then decide (age > CACHE_MAX_AGE.static)
  else decide (age > CACHE_MAX_AGE.dynamic)

/-- The expiry class of a stored response, by the same URL-shape rule
`isCacheExpired` applies (sw.js lines 298-304). -/
inductive ExpiryClass where
  | api
  | static
  | dynamic
deriving DecidableEq, Repr

/-- Which expiry class `isCacheExpired` assigns to a response. -/
def expiryClassOf (resp : Response) : ExpiryClass :=
  if jsIncludes resp.url.href "/api/" then .api
  else if isStaticAsset resp.url then .static
  else .dynamic

/-- The max age `CACHE_MAX_AGE` assigns to an expiry class. -/
def maxAgeFor : ExpiryClass → Int
  | .api => CACHE_MAX_AGE.api
  | .static => CACHE_MAX_AGE.static
  | .dynamic => CACHE_MAX_AGE.dynamic

/-- A network-fetch rejection value (the JS error carried by the rejected
promise). -/
structure NetErr where
  msg : String
deriving DecidableEq, Repr

/-- A JavaScript value at a `||` site in the strategies: an un-awaited
promise (with the value its settlement would yield, `none` if it hangs),
a plain response object, or `undefined`. -/
inductive JsVal where
  | promiseVal (settlement : Option (Option Response))
  | respVal (r : Response)
  | undefVal
deriving DecidableEq, Repr

/-- JS truthiness: any object (a promise, a response) is truthy, and
`undefined` is falsy. -/
def JsVal.truthy : JsVal → Bool
  | .promiseVal _ => true
  | .respVal _ => true
  | .undefVal => false

/-- JS `a || b`: the left operand when truthy, else the right one. -/
def jsOr (a b : JsVal) : JsVal := if a.truthy then a else b

/-- Awaiting a `JsVal` inside an async function: a promise contributes its
settlement (`none` when it never settles), a plain value is ready at once,
with `undefined` as the inner `none`. -/
def awaitJs : JsVal → Option (Option Response)
  | .promiseVal settlement => settlement
  | .respVal r => some (some r)
  | .undefVal => some none

/-- The three ways the single `fetch(request)` call of a strategy can
behave: resolve with a response, reject, or never settle. -/
inductive NetOutcome where
  | resolves (r : Response)
  | rejects (e : NetErr)
  | neverSettles
deriving DecidableEq, Repr

/-- The settlement of `staleWhileRevalidateStrategy`'s `fetchPromise`
(sw.js line 236): the `.then` arm resolves with the network response (after
conditionally caching it), and the `.catch` arm logs the error and resolves
with `undefined`. -/
def swrFetchPromise : NetOutcome → Option (Option Response)
  | .resolves r => some (some r)
  | .rejects _ => some none
  | .neverSettles => none

/-- The cached response seen through JS: the response object or `undefined`. -/
def cachedJsVal : Option Response → JsVal
  | some c => .respVal c
  | none => .undefVal

/-- `staleWhileRevalidateStrategy` (sw.js line 231).  Inputs: the dynamic
cache's entry for the request, the current time, and the network's
behaviour for the background fetch.  Output: `some v` when the strategy's
promise resolves with `v` (`v = none` is resolving with `undefined`),
`none` when it never settles.  A fresh cached entry is returned
immediately; otherwise the code runs
`return fetchPromise || cachedResponse || new Response('Offline')`,
modelled by `jsOr`/`awaitJs`. -/
def staleWhileRevalidateStrategy (cached : Option Response) (now : Int)
    (net : NetOutcome) : Option (Option Response) :=
  match cached with
  | some c =>
    if !isCacheExpired c now then some (some c)
    else
      awaitJs (jsOr (jsOr (.promiseVal (swrFetchPromise net)) (.respVal c))
        (.respVal offlineResponse))
  | none =>
      awaitJs (jsOr (jsOr (.promiseVal (swrFetchPromise net)) .undefVal)
        (.respVal offlineResponse))

/-- What one run of `cacheFirstStrategy` did: the value its promise settled
with (`Except.error` = the promise rejected via the re-`throw`; the inner
`Option` is a possibly-`undefined` resolution), whether `fetch` was
invoked, and the response written to the cache if any. -/
structure CacheFirstTrace where
  result : Except NetErr (Option Response)
  fetched : Bool
  cachePut : Option Response
deriving Repr

/-- The part of `cacheFirstStrategy` from the `fetch` call on (sw.js lines
177-199), reached when there is no fresh cached entry: on a resolved fetch,
cache 200s and return the response; on a rejected fetch, return any cached
entry (even expired), else for navigations run
`return caches.match('/offline.html') || new Response('Offline')` —
`caches.match` is an un-awaited promise, hence truthy — else re-throw. -/
def cacheFirstNetworkPath (cached : Option Response)
    (net : Except NetErr Response) (offlineHtml : Option Response)
    (navigate : Bool) : Option CacheFirstTrace :=
  match net with
  | .ok r =>
    some { result := .ok (some r), fetched := true
           cachePut := if r.status == 200 then some r else none }
  | .error e =>
    match cached with
    | some c => some { result := .ok (some c), fetched := true, cachePut := none }
    | none =>
      if navigate then
        (awaitJs (jsOr (.promiseVal (some offlineHtml)) (.respVal offlineResponse))).map
          (fun v => { result := .ok v, fetched := true, cachePut := none })
      else
        some { result := .error e, fetched := true, cachePut := none }

/-- `cacheFirstStrategy` (sw.js line 169).  Inputs: the cache's entry for
the request, the current time, the fetch outcome (settled: `Except`), the
cache's entry for `/offline.html`, and whether the request is a navigation.
A present, unexpired cached entry is returned without touching the
network; otherwise control moves to `cacheFirstNetworkPath`. -/
def cacheFirstStrategy (cached : Option Response) (now : Int)
    (net : Except NetErr Response) (offlineHtml : Option Response)
    (navigate : Bool) : Option CacheFirstTrace :=
  match cached with
  | some c =>
    if !isCacheExpired c now then
      some { result := .ok (some c), fetched := false, cachePut := none }
    else cacheFirstNetworkPath (some c) net offlineHtml navigate
  | none => cacheFirstNetworkPath none net offlineHtml navigate

/-- What one run of `networkFirstStrategy` did: the settled value of its
promise and the response written to the dynamic cache if any. -/
structure NetworkFirstTrace where
  result : Except NetErr Response
  cachePut : Option Response
deriving Repr

/-- `networkFirstStrategy` (sw.js line 206).  Fetch first; a resolved
response is returned as-is (cached when its status is 200, with no expiry
check and no status-based fallback); a rejected fetch falls back to any
cached entry — `isCacheExpired` is never consulted — and re-throws when
there is none. -/
def networkFirstStrategy (cached : Option Response)
    (net : Except NetErr Response) : NetworkFirstTrace :=
  match net with
  | .ok r =>
    { result := .ok r, cachePut := if r.status == 200 then some r else none }
  | .error e =>
    match cached with
    | some c => { result := .ok c, cachePut := none }
    | none => { result := .error e, cachePut := none }

/-- `shouldDeleteCache`: the condition of the activate sweep (sw.js lines
79-81) under which a cache name is deleted. -/
def shouldDeleteCache (cacheName : String) : Bool :=
  cacheName != STATIC_CACHE_NAME && cacheName != DYNAMIC_CACHE_NAME &&
    jsStartsWith cacheName "geniusglider-"

/-- The cache names surviving the activate sweep (sw.js line 71): every
existing name whose deletion condition does not hold. -/
def activateSurvivors (cacheNames : List String) : List String :=
  cacheNames.filter (fun n => !shouldDeleteCache n)

/-- A pending offline form submission as stored in the `offlineForms`
object store: auto-incremented key `id` and the opaque form payload. -/
structure PendingForm where
  id : Nat
  payload : String
deriving DecidableEq, Repr

/-- The outcome of the replay `fetch('/api/consultation', ...)` for one
pending form: the promise resolves with some HTTP status, or rejects. -/
inductive ReplayFetch where
  | resolves (status : Nat)
  | rejects
deriving DecidableEq, Repr

/-- The outcome of `deleteOfflineForm` for one pending form: the deletion
request succeeds or errors (its promise rejects). -/
inductive DeleteResult where
  | succeeds
  | fails
deriving DecidableEq, Repr

/-- JS `Response.ok`: the status is in the 2xx success range. -/
def statusOk (status : Nat) : Bool := 200 ≤ status && status < 300

/-- An environment fixing, for each pending form, how its replay fetch and
its store deletion behave during one drain. -/
def DrainEnv : Type := PendingForm → ReplayFetch × DeleteResult

/-- Whether the loop body of `handleOfflineFormSubmission` (sw.js lines
315-332) removes a given form from the store: the replay fetch must
resolve with `response.ok` and the subsequent delete must succeed; a
rejected fetch or a failed delete is caught by the per-item `catch` and
leaves the form stored. -/
def replayDeleted (env : DrainEnv) (f : PendingForm) : Bool :=
  match env f with
  | (.resolves s, .succeeds) => statusOk s
  | (.resolves _, .fails) => false
  | (.rejects, _) => false

/-- Whether the replay fetch alone reported success (`response.ok`),
regardless of what the deletion then did. -/
def replaySucceeded (env : DrainEnv) (f : PendingForm) : Bool :=
  match (env f).1 with
  | .resolves s => statusOk s
  | .rejects => false

/-- The `for (const form of offlineForms)` loop of
`handleOfflineFormSubmission` (sw.js lines 315-332), over the forms in
store order: returns the forms still stored afterwards and the ids whose
replay was attempted, in attempt order.  Every form's replay is attempted:
each iteration's failures are confined by its own `try`/`catch`. -/
def drainForms (forms : List PendingForm) (env : DrainEnv) :
    List PendingForm × List Nat :=
  match forms with
  | [] => ([], [])
  | f :: rest =>
    let tail := drainForms rest env
    ((if replayDeleted env f then tail.1 else f :: tail.1), f.id :: tail.2)

/-- How the storage layer behaves for one drain: `opens forms` when
`openDB` and `getOfflineForms` both succeed and yield `forms` in key
order; otherwise the failing step's rejection message. -/
inductive StoreOutcome where
  | opens (forms : List PendingForm)
  | openDBFails (msg : String)
  | readFails (msg : String)
deriving DecidableEq, Repr

/-- The body of `handleOfflineFormSubmission`'s outer `try` (sw.js lines
312-332): open the store, read all pending forms, run the replay loop;
a storage failure rejects out of the body. -/
def drainBody (store : StoreOutcome) (env : DrainEnv) :
    Except String (List PendingForm × List Nat) :=
  match store with
  | .opens forms => .ok (drainForms forms env)
  | .openDBFails m => .error m
  | .readFails m => .error m

/-- `handleOfflineFormSubmission` (sw.js line 310): the outer `catch`
(line 333) logs any storage failure and resolves normally, so the
function's promise always resolves — with the drain report when storage
worked (`some`), with `undefined` (`none`) when it failed. -/
def handleOfflineFormSubmission (store : StoreOutcome) (env : DrainEnv) :
    Except String (Option (List PendingForm × List Nat)) :=
  match drainBody store env with
  | .ok r => .ok (some r)
  | .error _ => .ok none

/-! Concrete fixtures used by witnesses and counterexamples. -/

/-- A static-class stored entry: `/index.html` captured at time `d`. -/
def staticEntry (d : Int) : Response :=
  { status := 200, body := "<html>home</html>"
    url := { href := "https://geniusglider.com/index.html", pathname := "/index.html" }
    dateHeader := some d }

/-- An api-class stored entry: `/api/consultation` captured at time `d`. -/
def apiEntry (d : Int) : Response :=
  { status := 200, body := "{}"
    url := { href := "https://geniusglider.com/api/consultation", pathname := "/api/consultation" }
    dateHeader := some d }

/-- A dynamic-class stored entry: `/about` captured at time `d`. -/
def dynEntry (d : Int) : Response :=
  { status := 200, body := "<html>about</html>"
    url := { href := "https://geniusglider.com/about", pathname := "/about" }
    dateHeader := some d }

/-- The error carried by a rejected fetch while offline. -/
def netDown : NetErr := { msg := "network unreachable" }

/-- A resolved fetch whose HTTP status reports a server error. -/
def server500 : Response :=
  { status := 500, body := "internal server error"
    url := { href := "https://geniusglider.com/api/consultation", pathname := "/api/consultation" }
    dateHeader := some 0 }

/-- A cached `/offline.html` fallback page. -/
def offlinePage : Response :=
  { status := 200, body := "<html>offline</html>"
    url := { href := "https://geniusglider.com/offline.html", pathname := "/offline.html" }
    dateHeader := some 0 }

/-- Pending submission A (queued first). -/
def fA : PendingForm := { id := 1, payload := "formA" }

/-- Pending submission B (queued second). -/
def fB : PendingForm := { id := 2, payload := "formB" }

/-- Pending submission C (queued third). -/
def fC : PendingForm := { id := 3, payload := "formC" }

/-- A drain environment where every replay resolves 200 and every delete
succeeds. -/
def envAllOk : DrainEnv := fun _ => (.resolves 200, .succeeds)

/-- A drain environment where only submission id 2 fails its replay (the
endpoint answers 500); deletes always succeed. -/
def envBFails : DrainEnv :=
  fun f => (if f.id == 2 then .resolves 500 else .resolves 200, .succeeds)

/-- A drain environment where submission id 2's replay succeeds (201) but
its deletion from the store fails; everything else succeeds. -/
def envBDeleteFails : DrainEnv :=
  fun f => if f.id == 2 then (.resolves 201, .fails) else (.resolves 200, .succeeds)

/-! Helper lemmas about the drain loop and the activate sweep. -/

/-- The drain loop attempts every pending form's replay, in store order. -/
theorem drainForms_attempts (forms : List PendingForm) (env : DrainEnv) :
    (drainForms forms env).2 = forms.map PendingForm.id := by
  induction forms with
  | nil => rfl
  | cons f rest ih => simp [drainForms, ih]

/-- After the drain loop, the store holds exactly the forms whose
replay-then-delete did not complete. -/
theorem drainForms_remaining (forms : List PendingForm) (env : DrainEnv) :
    (drainForms forms env).1 = forms.filter (fun f => !replayDeleted env f) := by
  induction forms with
  | nil => rfl
  | cons f rest ih =>
    by_cases h : replayDeleted env f = true
    · simp [drainForms, List.filter_cons, h, ih]
    · simp [drainForms, List.filter_cons, h, ih]

/-- A cache name escapes deletion by the activate sweep exactly when it is
outside the app's namespace prefix or is one of the two current names. -/
theorem shouldDeleteCache_eq_false (n : String) :
    (!shouldDeleteCache n) = true ↔
      jsStartsWith n "geniusglider-" = false ∨
        n = STATIC_CACHE_NAME ∨ n = DYNAMIC_CACHE_NAME := by
  simp only [shouldDeleteCache, Bool.not_eq_eq_eq_not, Bool.not_true,
    Bool.and_eq_false_iff, bne_eq_false_iff_eq, Bool.not_eq_true]
  tauto

/-! Claim theorems. -/

/-- C1: failing input for the claim that a StaleWhileRevalidate request
whose fetch fails resolves with a synthetic "Offline" response when no
cached entry exists (and with the awaited network outcome, offline as last
resort, over an expired entry).  In the code the un-awaited `fetchPromise`
is an always-truthy promise object, so
`fetchPromise || cachedResponse || new Response('Offline')` always picks
`fetchPromise`, whose `.catch` arm resolves with `undefined`: with no
cached entry — and equally with an expired one — a failed fetch makes the
strategy resolve with `undefined`, never with the "Offline" response. -/
theorem c1_swr_offline_fallback_failing_input :
    staleWhileRevalidateStrategy none 0 (.rejects netDown) = some none ∧
    isCacheExpired (dynEntry 0) (8 * 24 * 60 * 60 * 1000) = true ∧
    staleWhileRevalidateStrategy (some (dynEntry 0)) (8 * 24 * 60 * 60 * 1000)
      (.rejects netDown) = some none ∧
    (some none : Option (Option Response)) ≠ some (some offlineResponse) := by
  refine ⟨rfl, by decide, ?_, by decide⟩
  simp [staleWhileRevalidateStrategy, isCacheExpired, dynEntry, swrFetchPromise,
    jsOr, awaitJs, JsVal.truthy]
  decide

/-- C2: failing input for the claim that a failed CacheFirst navigation
with no cached entry and no cached fallback page yields a synthetic
"Offline" response.  `caches.match('/offline.html')` is un-awaited, hence
an always-truthy promise, so
`caches.match('/offline.html') || new Response('Offline')` always picks
the promise: when `/offline.html` is not cached the strategy resolves with
`undefined`, never with the "Offline" response.  The conjuncts also
evaluate the parts of the claim the code does satisfy: a cached fallback
page is returned, an expired cached entry is returned on failure, and a
non-navigation miss re-throws. -/
theorem c2_cachefirst_navigation_fallback_failing_input :
    cacheFirstStrategy none 0 (.error netDown) none true
      = some { result := .ok none, fetched := true, cachePut := none } ∧
    cacheFirstStrategy none 0 (.error netDown) (some offlinePage) true
      = some { result := .ok (some offlinePage), fetched := true, cachePut := none } ∧
    isCacheExpired (staticEntry 0) (31 * 24 * 60 * 60 * 1000) = true ∧
    cacheFirstStrategy (some (staticEntry 0)) (31 * 24 * 60 * 60 * 1000)
        (.error netDown) none false
      = some { result := .ok (some (staticEntry 0)), fetched := true, cachePut := none } ∧
    cacheFirstStrategy none 0 (.error netDown) none false
      = some { result := .error netDown, fetched := true, cachePut := none } := by
  refine ⟨rfl, rfl, by decide, ?_, rfl⟩
  simp [cacheFirstStrategy, cacheFirstNetworkPath, isCacheExpired, staticEntry,
    isStaticAsset]
  decide

/-- C3 (amended): `isCacheExpired` is true exactly when the entry's age
strictly exceeds its class's threshold — so an entry captured exactly 30
days ago is, contrary to the claim, not yet expired. -/
theorem c3_expiry_age_exceeds_threshold (resp : Response) (now d : Int)
    (h : resp.dateHeader = some d) :
    isCacheExpired resp now = decide (now - d > maxAgeFor (expiryClassOf resp)) := by
  by_cases h1 : jsIncludes resp.url.href "/api/" = true <;>
    by_cases h2 : isStaticAsset resp.url = true <;>
      simp [isCacheExpired, expiryClassOf, maxAgeFor, h, h1, h2]

/-- C3 witness: the threshold equation evaluated on a concrete static
entry aged exactly 30 days: not expired. -/
theorem c3_expiry_age_exceeds_threshold_witness :
    (staticEntry 0).dateHeader = some 0 ∧
    isCacheExpired (staticEntry 0) (30 * 24 * 60 * 60 * 1000)
      = decide ((30 * 24 * 60 * 60 * 1000 : Int) - 0 > maxAgeFor (expiryClassOf (staticEntry 0))) ∧
    isCacheExpired (staticEntry 0) (30 * 24 * 60 * 60 * 1000) = false :=
  ⟨rfl, c3_expiry_age_exceeds_threshold (staticEntry 0) (30 * 24 * 60 * 60 * 1000) 0 rfl,
    by decide⟩

/-- C3 counterexample: a static-class entry captured exactly 30 days ago —
the claim calls it expired, but `isCacheExpired` compares with a strict
`>` and reports it unexpired (while 30 days − 1 s is unexpired as the
claim says, and 30 days + 1 ms is expired). -/
theorem c3_thirty_day_boundary_counterexample :
    expiryClassOf (staticEntry 0) = .static ∧
    maxAgeFor .static = 30 * 24 * 60 * 60 * 1000 ∧
    isCacheExpired (staticEntry 0) (30 * 24 * 60 * 60 * 1000) = false ∧
    isCacheExpired (staticEntry 0) (30 * 24 * 60 * 60 * 1000 - 1000) = false ∧
    isCacheExpired (staticEntry 0) (30 * 24 * 60 * 60 * 1000 + 1) = true := by
  refine ⟨by decide, by decide, by decide, by decide, by decide⟩

/-- C4 (amended): when the NetworkFirst fetch rejects, the strategy
returns the cached entry if one exists — no expiry check is made — and
re-throws only when none exists. -/
theorem c4_networkfirst_rejection_fallback (c : Response) (e : NetErr) :
    (networkFirstStrategy (some c) (.error e)).result = .ok c ∧
    (networkFirstStrategy none (.error e)).result = .error e :=
  ⟨rfl, rfl⟩

/-- C4 counterexample: a fetch that resolves with HTTP 500 while an
(unexpired, 0-aged) cached entry exists — the claim counts a non-success
status as failure and requires the cached entry, but the code returns the
500 response as-is. -/
theorem c4_nonsuccess_status_counterexample :
    (networkFirstStrategy (some (apiEntry 0)) (.ok server500)).result = .ok server500 ∧
    server500.status = 500 ∧
    server500 ≠ apiEntry 0 := by
  refine ⟨rfl, rfl, by decide⟩

/-- C5: a CacheFirst request with a present, unexpired cached entry
returns that entry with `fetch` never invoked; the outcome is the same
for every network behaviour, fallback-page state and navigation mode. -/
theorem c5_cachefirst_fresh_no_fetch (c : Response) (now : Int)
    (h : isCacheExpired c now = false) (net : Except NetErr Response)
    (offlineHtml : Option Response) (navigate : Bool) :
    cacheFirstStrategy (some c) now net offlineHtml navigate
      = some { result := .ok (some c), fetched := false, cachePut := none } := by
  simp [cacheFirstStrategy, h]

/-- C5 witness: a fresh static entry served with the network down. -/
theorem c5_cachefirst_fresh_no_fetch_witness :
    isCacheExpired (staticEntry 0) 1000 = false ∧
    cacheFirstStrategy (some (staticEntry 0)) 1000 (.error netDown) none true
      = some { result := .ok (some (staticEntry 0)), fetched := false, cachePut := none } :=
  ⟨by decide,
    c5_cachefirst_fresh_no_fetch (staticEntry 0) 1000 (by decide) (.error netDown) none true⟩

/-- C6: a StaleWhileRevalidate request with a fresh cached entry resolves
with exactly that entry, for every behaviour of the background fetch —
including one that never settles — so the response neither differs from
the cached bytes nor waits on the network. -/
theorem c6_swr_fresh_immediate (c : Response) (now : Int)
    (h : isCacheExpired c now = false) (net : NetOutcome) :
    staleWhileRevalidateStrategy (some c) now net = some (some c) := by
  simp [staleWhileRevalidateStrategy, h]

/-- C6 witness: a fresh dynamic entry served while the background fetch
never settles. -/
theorem c6_swr_fresh_immediate_witness :
    isCacheExpired (dynEntry 0) 1000 = false ∧
    staleWhileRevalidateStrategy (some (dynEntry 0)) 1000 .neverSettles
      = some (some (dynEntry 0)) :=
  ⟨by decide, c6_swr_fresh_immediate (dynEntry 0) 1000 (by decide) .neverSettles⟩

/-- C7: the activate sweep keeps exactly the cache names outside the
`geniusglider-` namespace plus the current static and dynamic names;
every other prefixed name is deleted. -/
theorem c7_generation_sweep (cacheNames : List String) (n : String) :
    n ∈ activateSurvivors cacheNames ↔
      n ∈ cacheNames ∧
        (jsStartsWith n "geniusglider-" = false ∨
          n = STATIC_CACHE_NAME ∨ n = DYNAMIC_CACHE_NAME) := by
  rw [activateSurvivors, List.mem_filter]
  exact and_congr_right fun _ => shouldDeleteCache_eq_false n

/-- C8: when the store's deletes all succeed, one drain attempts every
pending form in insertion order and removes exactly those whose replay
fetch resolved with a 2xx status; a failed replay leaves its form queued
without stopping the later attempts. -/
theorem c8_drain_partial_failure (forms : List PendingForm) (env : DrainEnv)
    (hdel : ∀ f, (env f).2 = DeleteResult.succeeds) :
    (drainForms forms env).2 = forms.map PendingForm.id ∧
    (drainForms forms env).1 = forms.filter (fun f => !replaySucceeded env f) := by
  refine ⟨drainForms_attempts forms env, ?_⟩
  rw [drainForms_remaining]
  refine List.filter_congr fun f _ => ?_
  have h2 := hdel f
  rcases henv : env f with ⟨rf, dr⟩
  rw [henv] at h2
  cases rf <;> simp_all [replayDeleted, replaySucceeded, henv]

/-- C8 witness: A, B, C queued in order, B's replay answered 500: the
attempts run 1, 2, 3 and only B stays queued. -/
theorem c8_drain_partial_failure_witness :
    (drainForms [fA, fB, fC] envBFails).2 = [1, 2, 3] ∧
    (drainForms [fA, fB, fC] envBFails).1 = [fB] := by
  have h := c8_drain_partial_failure [fA, fB, fC] envBFails (fun f => rfl)
  exact ⟨h.1.trans (by decide), h.2.trans (by decide)⟩

/-- C9 (amended): a storage failure (the durable store cannot be opened,
or its pending records cannot be read) is caught by the drain's outer
handler: the drain resolves normally with `undefined` and no replay is
attempted — the failure is not propagated to the caller. -/
theorem c9_storage_failure_swallowed (m : String) (env : DrainEnv) :
    handleOfflineFormSubmission (.openDBFails m) env = .ok none ∧
    handleOfflineFormSubmission (.readFails m) env = .ok none :=
  ⟨rfl, rfl⟩

/-- C9 counterexample: with the store failing to open (and likewise
failing to read), the drain's promise resolves (`Except.ok`) instead of
rejecting as the claim requires. -/
theorem c9_storage_failure_counterexample :
    handleOfflineFormSubmission (.openDBFails "indexedDB open rejected") envAllOk
      = .ok none ∧
    handleOfflineFormSubmission (.readFails "getAll rejected") envAllOk
      = .ok none :=
  ⟨rfl, rfl⟩

/-- C10: when a form's replay resolves 2xx but its deletion from the store
fails, the error is caught: the form stays queued, every form's replay is
still attempted, and a later drain attempts the surviving form again —
replay is at-least-once. -/
theorem c10_delete_failure_at_least_once (pre post : List PendingForm)
    (f : PendingForm) (env env2 : DrainEnv) (s : Nat)
    (hfetch : (env f).1 = .resolves s) (hok : statusOk s = true)
    (hdel : (env f).2 = .fails) :
    f ∈ (drainForms (pre ++ f :: post) env).1 ∧
    (drainForms (pre ++ f :: post) env).2 = (pre ++ f :: post).map PendingForm.id ∧
    f.id ∈ (drainForms ((drainForms (pre ++ f :: post) env).1) env2).2 := by
  have h1 : env f = (ReplayFetch.resolves s, DeleteResult.fails) := by
    rcases henv : env f with ⟨rf, dr⟩
    rw [henv] at hfetch hdel
    simp only at hfetch hdel
    rw [hfetch, hdel]
  have notDel : replayDeleted env f = false := by simp [replayDeleted, h1]
  have hmem : f ∈ (drainForms (pre ++ f :: post) env).1 := by
    rw [drainForms_remaining]
    refine List.mem_filter.mpr ⟨by simp, by simp [notDel]⟩
  refine ⟨hmem, drainForms_attempts _ env, ?_⟩
  rw [drainForms_attempts]
  exact List.mem_map_of_mem PendingForm.id hmem

/-- C10 witness: B's replay resolves 201 but its delete fails; B survives
the drain, all of 1, 2, 3 are attempted, and a second drain attempts B
again. -/
theorem c10_delete_failure_at_least_once_witness :
    fB ∈ (drainForms ([fA] ++ fB :: [fC]) envBDeleteFails).1 ∧
    (drainForms ([fA] ++ fB :: [fC]) envBDeleteFails).2
      = ([fA] ++ fB :: [fC]).map PendingForm.id ∧
    fB.id ∈ (drainForms ((drainForms ([fA] ++ fB :: [fC]) envBDeleteFails).1) envAllOk).2 :=
  c10_delete_failure_at_least_once [fA] [fC] fB envBDeleteFails envAllOk 201
    rfl (by decide) rfl

end Geniusglider
